import Mathlib

/-!
Verification of the shader-interface extractor in
`src/tools/shadertool/ShaderTool.cpp`: the type catalog, the std140/std430
memory-layout computation, the declaration scanner (`ShaderTool::parse`), the
layout-qualifier parser and the binding-code generator.  The token stream that
the scanner consumes is modelled as a `List String`, matching the Token Cursor
contract (peek / advance / step-back over a preprocessed token sequence).
-/

namespace ShaderToolV

/-- The GLSL type enum `ShaderTool::Variable::Type`, in the declaration order of
the catalog table `ShaderTool::cTypes` (ShaderTool.cpp, lines 26-60). -/
inductive Typ where
  | DOUBLE
  | FLOAT
  | UNSIGNED_INT
  | BOOL
  | INT
  | BVEC2
  | BVEC3
  | BVEC4
  | DVEC2
  | DVEC3
  | DVEC4
  | UVEC2
  | UVEC3
  | UVEC4
  | IVEC2
  | IVEC3
  | IVEC4
  | VEC2
  | VEC3
  | VEC4
  | MAT2
  | MAT3
  | MAT4
  | MAT3X4
  | MAT4X3
  | SAMPLER1D
  | SAMPLER2D
  | SAMPLER2DARRAY
  | SAMPLER2DARRAYSHADOW
  | SAMPLER3D
  | SAMPLERCUBEMAP
  | SAMPLER1DSHADOW
  | SAMPLER2DSHADOW
  deriving DecidableEq, Repr

/-- The pass-by convention column of `ShaderTool::cTypes`. -/
inductive PassBy where
  | Value
  | Reference
  | Pointer
  deriving DecidableEq, Repr

/-- One row of the static catalog table `ShaderTool::cTypes`. -/
structure Types where
  type : Typ
  components : Int
  ctype : String
  passBy : PassBy
  glsltype : String
  deriving DecidableEq, Repr

/-- The catalog table `ShaderTool::cTypes` (ShaderTool.cpp lines 26-60),
indexed by the enum value (the C++ code reads `cTypes[v.type]`). -/
def cTypeOf : Typ → Types
  | .DOUBLE => ⟨.DOUBLE, 1, "double", .Value, "double"⟩
  | .FLOAT => ⟨.FLOAT, 1, "float", .Value, "float"⟩
  | .UNSIGNED_INT => ⟨.UNSIGNED_INT, 1, "uint32_t", .Value, "uint"⟩
  | .BOOL => ⟨.BOOL, 1, "bool", .Value, "bool"⟩
  | .INT => ⟨.INT, 1, "int32_t", .Value, "int"⟩
  | .BVEC2 => ⟨.BVEC2, 2, "glm::bvec2", .Reference, "bvec2"⟩
  | .BVEC3 => ⟨.BVEC3, 3, "glm::bvec3", .Reference, "bvec3"⟩
  | .BVEC4 => ⟨.BVEC4, 4, "glm::bvec4", .Reference, "bvec4"⟩
  | .DVEC2 => ⟨.DVEC2, 2, "glm::dvec2", .Reference, "dvec2"⟩
  | .DVEC3 => ⟨.DVEC3, 3, "glm::dvec3", .Reference, "dvec3"⟩
  | .DVEC4 => ⟨.DVEC4, 4, "glm::dvec4", .Reference, "dvec4"⟩
  | .UVEC2 => ⟨.UVEC2, 2, "glm::uvec2", .Reference, "uvec2"⟩
  | .UVEC3 => ⟨.UVEC3, 3, "glm::uvec3", .Reference, "uvec3"⟩
  | .UVEC4 => ⟨.UVEC4, 4, "glm::uvec4", .Reference, "uvec4"⟩
  | .IVEC2 => ⟨.IVEC2, 2, "glm::ivec2", .Reference, "ivec2"⟩
  | .IVEC3 => ⟨.IVEC3, 3, "glm::ivec3", .Reference, "ivec3"⟩
  | .IVEC4 => ⟨.IVEC4, 4, "glm::ivec4", .Reference, "ivec4"⟩
  | .VEC2 => ⟨.VEC2, 2, "glm::vec2", .Reference, "vec2"⟩
  | .VEC3 => ⟨.VEC3, 3, "glm::vec3", .Reference, "vec3"⟩
  | .VEC4 => ⟨.VEC4, 4, "glm::vec4", .Reference, "vec4"⟩
  | .MAT2 => ⟨.MAT2, 1, "glm::mat2", .Reference, "mat2"⟩
  | .MAT3 => ⟨.MAT3, 1, "glm::mat3", .Reference, "mat3"⟩
  | .MAT4 => ⟨.MAT4, 1, "glm::mat4", .Reference, "mat4"⟩
  | .MAT3X4 => ⟨.MAT3X4, 1, "glm::mat3x4", .Reference, "mat3x4"⟩
  | .MAT4X3 => ⟨.MAT4X3, 1, "glm::mat4x3", .Reference, "mat4x3"⟩
  | .SAMPLER1D => ⟨.SAMPLER1D, 1, "video::TextureUnit", .Value, "sampler1D"⟩
  | .SAMPLER2D => ⟨.SAMPLER2D, 1, "video::TextureUnit", .Value, "sampler2D"⟩
  | .SAMPLER2DARRAY => ⟨.SAMPLER2DARRAY, 1, "video::TextureUnit", .Value, "sampler2DArray"⟩
  | .SAMPLER2DARRAYSHADOW => ⟨.SAMPLER2DARRAYSHADOW, 1, "video::TextureUnit", .Value, "sampler2DArrayShadow"⟩
  | .SAMPLER3D => ⟨.SAMPLER3D, 1, "video::TextureUnit", .Value, "sampler3D"⟩
  | .SAMPLERCUBEMAP => ⟨.SAMPLERCUBEMAP, 1, "video::TextureUnit", .Value, "samplerCube"⟩
  | .SAMPLER1DSHADOW => ⟨.SAMPLER1DSHADOW, 1, "video::TextureUnit", .Value, "sampler1DShadow"⟩
  | .SAMPLER2DSHADOW => ⟨.SAMPLER2DSHADOW, 1, "video::TextureUnit", .Value, "sampler2DShadow"⟩

/-- The enum variants in declaration order: the C++ `getType` scans
`cTypes[0 .. Variable::MAX)` in this order. -/
def allTypes : List Typ :=
  [.DOUBLE, .FLOAT, .UNSIGNED_INT, .BOOL, .INT,
   .BVEC2, .BVEC3, .BVEC4, .DVEC2, .DVEC3, .DVEC4,
   .UVEC2, .UVEC3, .UVEC4, .IVEC2, .IVEC3, .IVEC4,
   .VEC2, .VEC3, .VEC4,
   .MAT2, .MAT3, .MAT4, .MAT3X4, .MAT4X3,
   .SAMPLER1D, .SAMPLER2D, .SAMPLER2DARRAY, .SAMPLER2DARRAYSHADOW,
   .SAMPLER3D, .SAMPLERCUBEMAP, .SAMPLER1DSHADOW, .SAMPLER2DSHADOW]

/-- `ShaderTool::getType` (lines 172-182): linear scan of the catalog comparing
the GLSL keyword spelling; an unmatched keyword hits `core_assert_msg(false, ...)`,
which the spec classifies as a fatal, unrecoverable failure — modelled as `none`. -/
def getType (s : String) : Option Typ :=
  allTypes.find? (fun t => (cTypeOf t).glsltype == s)

/-- `ShaderTool::getComponents` (lines 168-170). -/
def getComponents (t : Typ) : Int :=
  (cTypeOf t).components

/-- `ShaderTool::Variable` (declared in ShaderTool.h): type, name, arraySize,
where arraySize 0 = scalar, > 0 = fixed array, -1 = unresolved runtime array. -/
structure Variable where
  type : Typ
  name : String
  arraySize : Int
  deriving DecidableEq, Repr

/-- `ShaderTool::std140Size` (lines 230-267): base unit 4 bytes (8 for the
double-precision scalar and vectors); the component count starts from the
catalog and is then overridden for 2-component vectors (2), for
VEC3/DVEC3/IVEC3/BVEC3 (4) and for the matrix types; the result is multiplied
by the array size when it is positive. -/
def std140Size (v : Variable) : Int :=
  let cType := cTypeOf v.type
  let components := cType.components
  let bytes : Int :=
    if cType.type = .DVEC2 ∨ cType.type = .DVEC3 ∨ cType.type = .DVEC4 ∨ cType.type = .DOUBLE
    then 8 else 4
  let components :=
    if cType.type = .VEC2 ∨ cType.type = .DVEC2 ∨ cType.type = .IVEC2 ∨ cType.type = .BVEC2
    then 2 else components
  let components :=
    if cType.type = .VEC3 ∨ cType.type = .DVEC3 ∨ cType.type = .IVEC3 ∨ cType.type = .BVEC3
    then 4 else components
  let components :=
    if cType.type = .MAT2 then 4
    else if cType.type = .MAT3 then 9
    else if cType.type = .MAT4 then 16
    else if cType.type = .MAT3X4 then 16
    else if cType.type = .MAT4X3 then 16
    else components
  if v.arraySize > 0 then components * bytes * v.arraySize
  else components * bytes

/-- `ShaderTool::std140Align` (lines 197-215, compiled with `USE_ALIGN_AS == 1`):
the twelve listed vector types get `alignas(16) `, a bare float or double gets
`alignas(4) `, everything else gets the empty string. -/
def std140Align (v : Variable) : String :=
  let cType := cTypeOf v.type
  if cType.type = .VEC2 ∨ cType.type = .VEC3 ∨ cType.type = .VEC4
   ∨ cType.type = .DVEC2 ∨ cType.type = .DVEC3 ∨ cType.type = .DVEC4
   ∨ cType.type = .IVEC2 ∨ cType.type = .IVEC3 ∨ cType.type = .IVEC4
   ∨ cType.type = .BVEC2 ∨ cType.type = .BVEC3 ∨ cType.type = .BVEC4 then
    "alignas(16) "
  else if cType.type = .FLOAT ∨ cType.type = .DOUBLE then
    "alignas(4) "
  else
    ""

/-- `ShaderTool::std140Padding` (lines 217-228): with `USE_ALIGN_AS == 1` the
body is compiled out, so it emits nothing and leaves the padding counter
unchanged. -/
def std140Padding (_v : Variable) (padding : Int) : String × Int :=
  ("", padding)

/-- `ShaderTool::std430Align` (lines 269-272): delegates to `std140Align`. -/
def std430Align (v : Variable) : String :=
  std140Align v

/-- `ShaderTool::std430Size` (lines 274-277): delegates to `std140Size`. -/
def std430Size (v : Variable) : Int :=
  std140Size v

/-- `ShaderTool::std430Padding` (lines 279-282): delegates to `std140Padding`. -/
def std430Padding (v : Variable) (padding : Int) : String × Int :=
  std140Padding v padding

/-- The block layout mode stored in the Layout record (unknown / std140 / std430). -/
inductive BlockLayout where
  | unknown
  | std140
  | std430
  deriving DecidableEq, Repr

/-- `ShaderTool::typeAlign` (lines 284-292): `std430` selects the std430
computation, every other mode (`std140` and the `default` case, i.e. `unknown`)
selects std140. -/
def typeAlign (bl : BlockLayout) (v : Variable) : String :=
  match bl with
  | .std430 => std430Align v
  | _ => std140Align v

/-- `ShaderTool::typeSize` (lines 294-302). -/
def typeSize (bl : BlockLayout) (v : Variable) : Int :=
  match bl with
  | .std430 => std430Size v
  | _ => std140Size v

/-- `ShaderTool::typePadding` (lines 304-312). -/
def typePadding (bl : BlockLayout) (v : Variable) (padding : Int) : String × Int :=
  match bl with
  | .std430 => std430Padding v padding
  | _ => std140Padding v padding

/-- `ShaderTool::PrimitiveType`, matching `PrimitiveTypeStr` (lines 15-24):
entry 0 is the null entry (None), entries 1-7 are the named primitive types. -/
inductive PrimitiveType where
  | None
  | Points
  | Lines
  | LinesAdjacency
  | Triangles
  | TrianglesAdjacency
  | LineStrip
  | TriangleStrip
  deriving DecidableEq, Repr

/-- `ShaderTool::layoutPrimitiveType` (lines 657-667): match the token against
`PrimitiveTypeStr`, skipping the null entry; no match yields `None`. -/
def layoutPrimitiveType (token : String) : PrimitiveType :=
  if token = "points" then .Points
  else if token = "lines" then .Lines
  else if token = "lines_adjacency" then .LinesAdjacency
  else if token = "triangles" then .Triangles
  else if token = "triangles_adjacency" then .TrianglesAdjacency
  else if token = "line_strip" then .LineStrip
  else if token = "triangle_strip" then .TriangleStrip
  else .None

/-- Modelled from the spec: `core::string::toInt` (core/String, not under src/),
C `atoi` semantics — an optional sign followed by leading decimal digits; a
token with no leading digits converts to 0 (the spec: "a non-numeric or zero
size is treated as an unresolved (-1) runtime array"). -/
def toInt (s : String) : Int :=
  let digitsVal : List Char → Int :=
    fun cs => (cs.takeWhile Char.isDigit).foldl (fun a c => a * 10 + (Int.ofNat (c.toNat - 48))) 0
  match s.toList with
  | '-' :: r => - digitsVal r
  | '+' :: r => digitsVal r
  | cs => digitsVal cs

/-- Modelled from the spec: the `Layout` record declared in ShaderTool.h (not
under src/) — block layout mode, explicit location/offset/components/index/
binding, transform-feedback params, tessellation/geometry params, the
origin/pixel-center/early-fragment flags and the primitive type; `Layout()`
(the value every field reset yields) holds the defaults. -/
structure Layout where
  blockLayout : BlockLayout := .unknown
  location : Int := -1
  offset : Int := -1
  components : Int := -1
  index : Int := -1
  binding : Int := -1
  transformFeedbackBuffer : Int := -1
  transformFeedbackOffset : Int := -1
  tesselationVertices : Int := -1
  maxGeometryVertices : Int := -1
  originUpperLeft : Bool := false
  pixelCenterInteger : Bool := false
  earlyFragmentTests : Bool := false
  primitiveType : PrimitiveType := .None
  deriving DecidableEq, Repr

/-- The loop body of `ShaderTool::parseLayout` (lines 679-756): a do-while over
the token stream until the key token read at the top of an iteration is `)`.
Flag keys set their field; `key = value` keys assert the `=`
(`core_assert_always`, modelled as `none` on violation), return false when the
stream ends before the value, and store the converted value.  Unknown keys are
ignored.  The result is (returned bool, updated layout, remaining stream);
`none` models an assertion abort.  The loop is fuel-indexed (each iteration
consumes at least one token, so `ts.length + 1` fuel always suffices). -/
def parseLayoutLoop : Nat → Layout → List String → Option (Bool × Layout × List String)
  | 0, _, _ => none
  | _ + 1, l, [] => some (false, l, [])
  | fuel + 1, l, tok :: rest =>
    if tok = ")" then some (true, l, rest)
    else if tok = "std140" then parseLayoutLoop fuel { l with blockLayout := .std140 } rest
    else if tok = "std430" then parseLayoutLoop fuel { l with blockLayout := .std430 } rest
    else if tok = "location" then
      match rest with
      | "=" :: [] => some (false, l, [])
      | "=" :: v :: rest3 => parseLayoutLoop fuel { l with location := toInt v } rest3
      | _ => none
    else if tok = "offset" then
      match rest with
      | "=" :: [] => some (false, l, [])
      | "=" :: v :: rest3 => parseLayoutLoop fuel { l with offset := toInt v } rest3
      | _ => none
    else if tok = "compontents" then
      match rest with
      | "=" :: [] => some (false, l, [])
      | "=" :: v :: rest3 => parseLayoutLoop fuel { l with components := toInt v } rest3
      | _ => none
    else if tok = "index" then
      match rest with
      | "=" :: [] => some (false, l, [])
      | "=" :: v :: rest3 => parseLayoutLoop fuel { l with index := toInt v } rest3
      | _ => none
    else if tok = "binding" then
      match rest with
      | "=" :: [] => some (false, l, [])
      | "=" :: v :: rest3 => parseLayoutLoop fuel { l with binding := toInt v } rest3
      | _ => none
    else if tok = "xfb_buffer" then
      match rest with
      | "=" :: [] => some (false, l, [])
      | "=" :: v :: rest3 => parseLayoutLoop fuel { l with transformFeedbackBuffer := toInt v } rest3
      | _ => none
    else if tok = "xfb_offset" then
      match rest with
      | "=" :: [] => some (false, l, [])
      | "=" :: v :: rest3 => parseLayoutLoop fuel { l with transformFeedbackOffset := toInt v } rest3
      | _ => none
    else if tok = "vertices" then
      match rest with
      | "=" :: [] => some (false, l, [])
      | "=" :: v :: rest3 => parseLayoutLoop fuel { l with tesselationVertices := toInt v } rest3
      | _ => none
    else if tok = "max_vertices" then
      match rest with
      | "=" :: [] => some (false, l, [])
      | "=" :: v :: rest3 => parseLayoutLoop fuel { l with maxGeometryVertices := toInt v } rest3
      | _ => none
    else if tok = "origin_upper_left" then
      parseLayoutLoop fuel { l with originUpperLeft := true } rest
    else if tok = "pixel_center_integer" then
      parseLayoutLoop fuel { l with pixelCenterInteger := true } rest
    else if tok = "early_fragment_tests" then
      parseLayoutLoop fuel { l with earlyFragmentTests := true } rest
    else if tok = "primitive_type" then
      match rest with
      | "=" :: [] => some (false, l, [])
      | "=" :: v :: rest3 => parseLayoutLoop fuel { l with primitiveType := layoutPrimitiveType v } rest3
      | _ => none
    else
      parseLayoutLoop fuel l rest

/-- `ShaderTool::parseLayout` (lines 669-678 plus the loop): an empty stream or
a first token other than `(` returns false (the offending token is consumed);
otherwise the key loop runs. -/
def parseLayout (l : Layout) (ts : List String) : Option (Bool × Layout × List String) :=
  match ts with
  | [] => some (false, l, [])
  | tok :: rest =>
    if tok = "(" then parseLayoutLoop (rest.length + 1) l rest
    else some (false, l, rest)

/-- `ShaderTool::UniformBlock` (ShaderTool.h): a named ordered member list. -/
structure UniformBlock where
  name : String := ""
  members : List Variable := []
  deriving DecidableEq, Repr

/-- `ShaderTool::ShaderStruct` — the Shader Interface Model accumulated by
`parse`: the four top-level variable lists plus the uniform blocks. -/
structure ShaderStruct where
  filename : String := ""
  name : String := ""
  uniforms : List Variable := []
  attributes : List Variable := []
  varyings : List Variable := []
  outs : List Variable := []
  uniformBlocks : List UniformBlock := []
  deriving DecidableEq, Repr

/-- The mutable scanner state of `ShaderTool::parse`: the shared model
`_shaderStruct`, the current `_layout`, the uniform block being accumulated and
the inside-a-block flag. -/
structure ParseState where
  shaderStruct : ShaderStruct := {}
  layout : Layout := {}
  block : UniformBlock := {}
  uniformBlock : Bool := false
  deriving DecidableEq, Repr

/-- The target list a declaration is routed to (`std::vector<Variable>* v`). -/
inductive Target where
  | attributes
  | varyings
  | outs
  | uniforms
  deriving DecidableEq, Repr

/-- Read one of the four top-level lists of the model. -/
def getList (s : ShaderStruct) : Target → List Variable
  | .attributes => s.attributes
  | .varyings => s.varyings
  | .outs => s.outs
  | .uniforms => s.uniforms

/-- Replace one of the four top-level lists of the model. -/
def setList (s : ShaderStruct) : Target → List Variable → ShaderStruct
  | .attributes, l => { s with attributes := l }
  | .varyings, l => { s with varyings := l }
  | .outs, l => { s with outs := l }
  | .uniforms, l => { s with uniforms := l }

/-- Outcome of the declaration-reading sub-procedure of `parse`
(lines 825-866): a fatal abort (failed `core_assert_always`, unknown type, or
`next()` past the end of the stream), a `return false`, the start of a uniform
block (`<name> {`), or a parsed variable with the remaining stream. -/
inductive DeclResult where
  | crash
  | failed
  | blockStart (blockName : String) (rest : List String)
  | var (vr : Variable) (rest : List String)
  deriving DecidableEq, Repr

/-- The precision-qualifier skip loop plus name/array reading (lines 835-866):
`highp`/`mediump`/`lowp`/`precision` tokens are skipped (with a has-next check
before each read); the identifier is then read without a has-next check, so an
exhausted stream at that point is a fatal `next()` past the end.  An identifier
`{` starts a uniform block.  Otherwise the type keyword is resolved (unknown
keyword: fatal), and a following `[` triggers the array-size read, which
asserts the closing `]` and the terminating `;` and converts the size token,
turning 0 into -1. -/
def precLoop (ty : String) (ts : List String) : DeclResult :=
  if ty = "highp" ∨ ty = "mediump" ∨ ty = "lowp" ∨ ty = "precision" then
    match ts with
    | [] => .failed
    | ty2 :: rest => precLoop ty2 rest
  else
    match ts with
    | [] => .crash
    | name :: rest =>
      if name = "\x7b" then .blockStart ty rest
      else
        match getType ty with
        | none => .crash
        | some te =>
          match rest with
          | tk :: rest2 =>
            if tk = "[" then
              match rest2 with
              | [] => .crash
              | number :: rest3 =>
                match rest3 with
                | tk2 :: rest4 =>
                  if tk2 = "]" then
                    match rest4 with
                    | tk3 :: rest5 =>
                      if tk3 = ";" then
                        let n := toInt number
                        .var ⟨te, name, if n = 0 then -1 else n⟩ rest5
                      else .crash
                    | [] => .crash
                  else .crash
                | [] => .crash
            else .var ⟨te, name, 0⟩ rest
          | [] => .var ⟨te, name, 0⟩ []

/-- The declaration read of `parse` (lines 825-866): read the type token
(`return false` on an exhausted stream, and also when nothing follows it), then
run the precision-skip / name / array logic. -/
def declRead (ts : List String) : DeclResult :=
  match ts with
  | [] => .failed
  | ty :: rest =>
    if rest.isEmpty then .failed
    else precLoop ty rest

/-- Outcome of one iteration of the scanner loop: a fatal abort, a
`return false` with the state reached so far, or continuation with the updated
state and remaining stream. -/
inductive StepOut where
  | crash
  | failed (st : ParseState)
  | cont (st : ParseState) (ts : List String)
  deriving DecidableEq, Repr

/-- The declaration handling of one loop iteration once the target is chosen
(lines 825-879): a parsed variable is appended to the open block's member list
when inside a block (no duplicate check, no layout reset); otherwise it is
appended to the target list only when no entry of that list has the same name,
resetting the layout record; a duplicate is rejected with a warning, leaving
both the list and the layout record unchanged.  `v = none` outside a block
would dereference a null pointer in the C++ (unreachable from `parseStep`). -/
def declStep (st : ParseState) (v : Option Target) (ts : List String) : StepOut :=
  match declRead ts with
  | .crash => .crash
  | .failed => .failed st
  | .blockStart bname rest =>
    .cont { st with block := ⟨bname, []⟩, uniformBlock := true } rest
  | .var vr rest =>
    if st.uniformBlock then
      .cont { st with block := { st.block with members := st.block.members ++ [vr] } } rest
    else
      match v with
      | none => .crash
      | some tgt =>
        let l := getList st.shaderStruct tgt
        if l.any (fun w => w.name = vr.name) then
          .cont st rest
        else
          .cont { st with shaderStruct := setList st.shaderStruct tgt (l ++ [vr]),
                          layout := {} } rest

/-- The `if (v == nullptr && !uniformBlock) continue;` guard (lines 821-823)
for the branches that select no target list. -/
def afterSelect (st : ParseState) (v : Option Target) (ts : List String) : StepOut :=
  if v.isNone ∧ ¬ st.uniformBlock then .cont st ts
  else declStep st v ts

/-- One iteration of the scanner loop of `ShaderTool::parse` (lines 780-880):
the keyword dispatch on the token just read, followed by the declaration read
where applicable.  `$in` targets the attributes (vertex stage only), `$out`
targets the varyings in the vertex stage and the outs otherwise, `layout` runs
the layout parser (a false return only logs), `buffer` only logs, `uniform`
targets the uniforms; inside a uniform block a `}` appends the accumulated
block, resets the layout and asserts the trailing `;`, while any other
non-keyword token is stepped back and re-read as the start of a member
declaration.  A non-keyword token outside a block is skipped. -/
def parseStep (vertex : Bool) (st : ParseState) (tok : String) (rest : List String) : StepOut :=
  if tok = "$in" then
    if vertex then declStep st (some .attributes) rest
    else afterSelect st none rest
  else if tok = "$out" then
    declStep st (some (if vertex then Target.varyings else Target.outs)) rest
  else if tok = "layout" then
    match parseLayout st.layout rest with
    | none => .crash
    | some (_, l2, rest2) => afterSelect { st with layout := l2 } none rest2
  else if tok = "buffer" then
    afterSelect st none rest
  else if tok = "uniform" then
    declStep st (some .uniforms) rest
  else if st.uniformBlock then
    if tok = "\x7d" then
      match rest with
      | tk :: rest2 =>
        if tk = ";" then
          .cont { st with
                  shaderStruct := { st.shaderStruct with
                                    uniformBlocks := st.shaderStruct.uniformBlocks ++ [st.block] },
                  layout := {},
                  uniformBlock := false } rest2
        else .crash
      | [] => .crash
    else
      declStep st none (tok :: rest)
  else
    .cont st rest

/-- The scanner loop of `ShaderTool::parse`, fuel-indexed (each iteration
strictly shortens the stream, so `ts.length + 1` fuel always suffices; running
out of fuel is reported like a crash).  An exhausted stream still inside a
uniform block is the unterminated-block parse error (lines 881-884). -/
def parseLoop (vertex : Bool) : Nat → ParseState → List String → Option (Bool × ParseState)
  | 0, _, _ => none
  | Nat.succ fuel, st, ts =>
    match ts with
    | [] => if st.uniformBlock then some (false, st) else some (true, st)
    | tok :: rest =>
      match parseStep vertex st tok rest with
      | .crash => none
      | .failed st2 => some (false, st2)
      | .cont st2 ts2 => parseLoop vertex fuel st2 ts2

/-- `ShaderTool::parse` on an already-preprocessed token stream: run the
scanner loop from the given state.  The result is `none` on a fatal abort and
`some (returned bool, final state)` otherwise. -/
def parse (st : ParseState) (vertex : Bool) (ts : List String) : Option (Bool × ParseState) :=
  parseLoop vertex (ts.length + 1) st ts

/-- A Variable list in which no two entries share a name. -/
def distinctNames (l : List Variable) : Prop :=
  (l.map Variable.name).Nodup

instance (l : List Variable) : Decidable (distinctNames l) := by
  unfold distinctNames
  infer_instance

/-- The four top-level lists of the model are each name-deduplicated. -/
def listsDistinct (s : ShaderStruct) : Prop :=
  distinctNames s.attributes ∧ distinctNames s.varyings ∧
  distinctNames s.outs ∧ distinctNames s.uniforms

instance (s : ShaderStruct) : Decidable (listsDistinct s) := by
  unfold listsDistinct
  infer_instance

/-- The four top-level lists of the scanner state are each name-deduplicated. -/
def topListsDistinct (st : ParseState) : Prop :=
  listsDistinct st.shaderStruct

instance (st : ParseState) : Decidable (topListsDistinct st) := by
  unfold topListsDistinct
  infer_instance

/-- Modelled from the spec: `core::string::splitString` (core/String, not under
src/), strtok-style splitting on the delimiter characters that skips empty
parts. -/
def splitString (s : String) : List String :=
  (s.split (fun c => c = '_')).filter (fun p => p ≠ "")

/-- `n[0] = SDL_toupper(n[0])` — capitalize the first character (ASCII). -/
def capitalize1 (s : String) : String :=
  match s.data with
  | [] => s
  | c :: cs => String.mk (c.toUpper :: cs)

/-- Lowercase the first character (ASCII). -/
def lowercase1 (s : String) : String :=
  match s.data with
  | [] => s
  | c :: cs => String.mk (c.toLower :: cs)

/-- Modelled from the spec: `core::string::replaceAll` (core/String, not under
src/) — replace every occurrence of the placeholder with the given text. -/
def replaceAll (s pat rep : String) : String :=
  s.replace pat rep

/-- Modelled from the spec: `util::convertName` (Util.h, not under src/) —
derives a CamelCase (camelCase when the flag is false) accessor name from a
GLSL identifier by splitting on underscores and capitalizing; a pure function
of the identifier and the flag. -/
def convertName (s : String) (firstUpper : Bool) : String :=
  let joined := String.join ((splitString s).map capitalize1)
  let res := if firstUpper then capitalize1 joined else lowercase1 joined
  if res = "" then s else res

/-- The generated-class/file-name derivation of `ShaderTool::generateSrc`
(lines 335-348): split the (suffixed) shader name on `_`; every part is
appended with its first character capitalized, except that a part of length 1
is dropped when the split produced at least two parts; an empty result falls
back to the unsplit name. -/
def shaderFilename (name : String) : String :=
  let shaderNameParts := splitString name
  let filename := shaderNameParts.foldl
    (fun acc n => if n.length > 1 ∨ shaderNameParts.length < 2 then acc ++ capitalize1 n else acc)
    ""
  if filename = "" then name else filename

/-- The C10 claim's own description of the name derivation, stated as written:
the name is split on `_`; when the split produced two or more parts every part
of length 1 is dropped; the kept parts are capitalized and concatenated; if
every part was dropped the unsplit name is used unchanged. -/
def shaderFilenameSpec (name : String) : String :=
  let parts := splitString name
  let kept := if 2 ≤ parts.length then parts.filter (fun n => n.length > 1) else parts
  let joined := String.join (kept.map capitalize1)
  if joined = "" then name else joined

/-- Modelled from the spec: `Variable::isSingleInteger` (ShaderTool.h, not
under src/) — whether the variable's type is a single integer-valued quantity
(signed/unsigned/bool scalar, or a sampler, which binds as an integer texture
unit). -/
def Variable.isSingleInteger (v : Variable) : Bool :=
  match v.type with
  | .UNSIGNED_INT | .INT | .BOOL => true
  | .SAMPLER1D | .SAMPLER2D | .SAMPLER2DARRAY | .SAMPLER2DARRAYSHADOW => true
  | .SAMPLER3D | .SAMPLERCUBEMAP | .SAMPLER1DSHADOW | .SAMPLER2DSHADOW => true
  | _ => false

/-- Modelled from the spec: `Variable::isInteger` (ShaderTool.h, not under
src/) — whether the variable's type is integer-valued (integer/bool scalar or
vector), driving the `video::DataType::Int` choice in attribute initializers. -/
def Variable.isInteger (v : Variable) : Bool :=
  match v.type with
  | .UNSIGNED_INT | .INT | .BOOL => true
  | .BVEC2 | .BVEC3 | .BVEC4 => true
  | .UVEC2 | .UVEC3 | .UVEC4 => true
  | .IVEC2 | .IVEC3 | .IVEC4 => true
  | _ => false

/-- `ShaderTool::uniformSetterPostfix` (lines 70-166): the numeric suffix of
the `setUniform...` call generated for a uniform of the given type, where an
amount above 1 (fixed array, or the unresolved-array placeholder 2) selects the
vector form. -/
def uniformSetterSuffix (t : Typ) (amount : Int) : String :=
  match t with
  | .FLOAT => if amount > 1 then "1fv" else "f"
  | .DOUBLE => if amount > 1 then "1dv" else "d"
  | .UNSIGNED_INT => if amount > 1 then "1uiv" else "ui"
  | .BOOL => if amount > 1 then "1iv" else "i"
  | .INT => if amount > 1 then "1iv" else "i"
  | .DVEC2 => if amount > 1 then "Vec2v" else "Vec2"
  | .BVEC2 => if amount > 1 then "Vec2v" else "Vec2"
  | .UVEC2 => if amount > 1 then "Vec2v" else "Vec2"
  | .VEC2 => if amount > 1 then "Vec2v" else "Vec2"
  | .DVEC3 => if amount > 1 then "Vec3v" else "Vec3"
  | .BVEC3 => if amount > 1 then "Vec3v" else "Vec3"
  | .UVEC3 => if amount > 1 then "Vec3v" else "Vec3"
  | .VEC3 => if amount > 1 then "Vec3v" else "Vec3"
  | .DVEC4 => if amount > 1 then "Vec4v" else "Vec4"
  | .BVEC4 => if amount > 1 then "Vec4v" else "Vec4"
  | .UVEC4 => if amount > 1 then "Vec4v" else "Vec4"
  | .VEC4 => if amount > 1 then "Vec4v" else "Vec4"
  | .IVEC2 => if amount > 1 then "Vec2v" else "Vec2"
  | .IVEC3 => if amount > 1 then "Vec3v" else "Vec3"
  | .IVEC4 => if amount > 1 then "Vec4v" else "Vec4"
  | .MAT3X4 => if amount > 1 then "Matrixv" else "Matrix"
  | .MAT4X3 => if amount > 1 then "Matrixv" else "Matrix"
  | .MAT2 => if amount > 1 then "Matrixv" else "Matrix"
  | .MAT3 => if amount > 1 then "Matrixv" else "Matrix"
  | .MAT4 => if amount > 1 then "Matrixv" else "Matrix"
  | .SAMPLER1D => if amount > 1 then "1iv" else ""
  | .SAMPLER2D => if amount > 1 then "1iv" else ""
  | .SAMPLER3D => if amount > 1 then "1iv" else ""
  | .SAMPLER1DSHADOW => if amount > 1 then "1iv" else ""
  | .SAMPLER2DSHADOW => if amount > 1 then "1iv" else ""
  | .SAMPLER2DARRAY => if amount > 1 then "1iv" else ""
  | .SAMPLER2DARRAYSHADOW => if amount > 1 then "1iv" else ""
  | .SAMPLERCUBEMAP => if amount > 1 then "1iv" else "i"

/-- The comma-separated quoted-name list emitted into `checkUniforms({...})`
and `checkAttributes({...})`. -/
def quotedNames (l : List Variable) : String :=
  String.intercalate ", " (l.map (fun v => "\"" ++ v.name ++ "\""))

/-- The `$uniforms$` replacement text (lines 352-377). -/
def uniformsText (us : List Variable) : String :=
  if us.length > 0 then "checkUniforms(\x7b" ++ quotedNames us ++ "\x7d);"
  else "// no uniforms"

/-- The `$uniformarrayinfo$` replacement text (lines 368-374): emitted only
when there is at least one uniform. -/
def uniformArrayInfoText (us : List Variable) : String :=
  if us.length > 0 then
    String.join (us.map (fun v =>
      "\t\tsetUniformArraySize(\"" ++ v.name ++ "\", " ++ toString v.arraySize ++ ");\n"))
  else ""

/-- The `$attributes$` replacement text (lines 381-403). -/
def attributesText (l : List Variable) : String :=
  if l.length > 0 then
    "checkAttributes(\x7b" ++ quotedNames l ++ "\x7d);\n"
    ++ String.join (l.map (fun v =>
         "\t\tconst int " ++ v.name ++ "Location = getAttributeLocation(\"" ++ v.name ++ "\");\n"
         ++ "\t\tif (" ++ v.name ++ "Location != -1) \x7b\n"
         ++ "\t\t\tsetAttributeComponents(" ++ v.name ++ "Location, "
         ++ toString (getComponents v.type) ++ ");\n"
         ++ "\t\t\x7d\n"))
  else "// no attributes"

/-- The setter text generated for one uniform (lines 410-497): the main
`set<Name>` overload (const-ness from the pass-by convention and the
single-integer-array case, pointer/reference decoration, fixed-array reference
parameter, the extra `int amount` parameter for runtime-sized arrays), plus the
`std::vector` convenience overload for fixed arrays and for vec2/vec3/vec4. -/
def setterForUniform (v : Variable) : String :=
  let isInteger := v.isSingleInteger
  let uniformName := convertName v.name true
  let cType := cTypeOf v.type
  "\tinline bool set" ++ uniformName ++ "("
  ++ (if (v.arraySize > 0 ∧ isInteger) ∨ cType.passBy = .Reference then "const " else "")
  ++ cType.ctype
  ++ (if v.arraySize = -1 ∨ cType.passBy = .Pointer then "*"
      else if cType.passBy = .Reference then (if v.arraySize ≤ 0 then "&" else "")
      else "")
  ++ (if v.arraySize > 0 then " (&" ++ v.name ++ ")[" ++ toString v.arraySize ++ "]"
      else " " ++ v.name)
  ++ (if v.arraySize = -1 then ", int amount" else "")
  ++ ") const \x7b\n"
  ++ "\t\tconst int location = getUniformLocation(\"" ++ v.name
  ++ "\");\n\t\tif (location == -1) \x7b\n"
  ++ "\t\t\treturn false;\n"
  ++ "\t\t\x7d\n"
  ++ "\t\tsetUniform" ++ uniformSetterSuffix v.type (if v.arraySize = -1 then 2 else v.arraySize)
  ++ "(location, " ++ v.name
  ++ (if v.arraySize > 0 then ", " ++ toString v.arraySize
      else if v.arraySize = -1 then ", amount" else "")
  ++ ");\n"
  ++ "\t\treturn true;\n"
  ++ "\t\x7d\n"
  ++ (if v.arraySize > 0 then
        "\n\tinline bool set" ++ uniformName ++ "(" ++ "const std::vector<" ++ cType.ctype
        ++ ">& var) const \x7b\n"
        ++ "\t\tconst int location = getUniformLocation(\"" ++ v.name
        ++ "\");\n\t\tif (location == -1) \x7b\n"
        ++ "\t\t\treturn false;\n"
        ++ "\t\t\x7d\n"
        ++ "\t\tcore_assert((int)var.size() == " ++ toString v.arraySize ++ ");\n"
        ++ "\t\tsetUniform" ++ uniformSetterSuffix v.type v.arraySize
        ++ "(location, &var.front(), var.size());\n"
        ++ "\t\treturn true;\n"
        ++ "\t\x7d\n"
      else if cType.type = .VEC2 ∨ cType.type = .VEC3 ∨ cType.type = .VEC4 then
        "\n\tinline bool set" ++ uniformName ++ "(" ++ "const std::vector<float>& var) const \x7b\n"
        ++ "\t\tconst int location = getUniformLocation(\"" ++ v.name
        ++ "\");\n\t\tif (location == -1) \x7b\n"
        ++ "\t\t\treturn false;\n"
        ++ "\t\t\x7d\n"
        ++ "\t\tcore_assert(int(var.size()) % " ++ toString cType.components ++ " == 0);\n"
        ++ "\t\tsetUniformfv(location, &var.front(), " ++ toString cType.components ++ ", "
        ++ toString cType.components ++ ");\n"
        ++ "\t\treturn true;\n"
        ++ "\t\x7d\n"
      else "")

/-- The setter text generated for one attribute (lines 498-562): the
customizable and default initializers, the location/components getters and the
per-attribute divisor setter. -/
def setterForAttribute (v : Variable) : String :=
  let attributeName := convertName v.name true
  let isInt := v.isInteger
  let cType := cTypeOf v.type
  "\tinline bool init" ++ attributeName ++ "Custom(size_t stride = "
  ++ "sizeof(" ++ cType.ctype ++ ")"
  ++ ", const void* pointer = nullptr, video::DataType type = "
  ++ (if isInt then "video::DataType::Int" else "video::DataType::Float")
  ++ ", int size = " ++ toString cType.components ++ ", "
  ++ "bool isInt = " ++ (if isInt then "true" else "false")
  ++ ", bool normalize = false) const \x7b\n"
  ++ "\t\tconst int loc = enableVertexAttributeArray(\"" ++ v.name ++ "\");\n"
  ++ "\t\tif (loc == -1) \x7b\n"
  ++ "\t\t\treturn false;\n"
  ++ "\t\t\x7d\n"
  ++ "\t\tif (isInt) \x7b\n"
  ++ "\t\t\tsetVertexAttributeInt(loc, size, type, stride, pointer);\n"
  ++ "\t\t\x7d else \x7b\n"
  ++ "\t\t\tsetVertexAttribute(loc, size, type, normalize, stride, pointer);\n"
  ++ "\t\t\x7d\n"
  ++ "\t\treturn true;\n"
  ++ "\t\x7d\n\n"
  ++ "\tinline int getLocation" ++ attributeName ++ "() const \x7b\n"
  ++ "\t\treturn getAttributeLocation(\"" ++ v.name ++ "\");\n"
  ++ "\t\x7d\n\n"
  ++ "\tinline int getComponents" ++ attributeName ++ "() const \x7b\n"
  ++ "\t\treturn getAttributeComponents(\"" ++ v.name ++ "\");\n"
  ++ "\t\x7d\n\n"
  ++ "\tinline bool init" ++ attributeName ++ "() const \x7b\n"
  ++ "\t\tconst int loc = enableVertexAttributeArray(\"" ++ v.name ++ "\");\n"
  ++ "\t\tif (loc == -1) \x7b\n"
  ++ "\t\t\treturn false;\n"
  ++ "\t\t\x7d\n"
  ++ "\t\tconst size_t stride = sizeof(" ++ cType.ctype ++ ");\n"
  ++ "\t\tconst void* pointer = nullptr;\n"
  ++ "\t\tconst video::DataType type = "
  ++ (if isInt then "video::DataType::Int" else "video::DataType::Float")
  ++ ";\n"
  ++ "\t\tconst int size = getAttributeComponents(loc);\n"
  ++ (if isInt then "\t\tsetVertexAttributeInt(loc, size, type, stride, pointer);\n"
      else "\t\tsetVertexAttribute(loc, size, type, false, stride, pointer);\n")
  ++ "\t\treturn true;\n"
  ++ "\t\x7d\n\n"
  ++ "\tinline bool set" ++ attributeName ++ "Divisor(uint32_t divisor) const \x7b\n"
  ++ "\t\tconst int location = getAttributeLocation(\"" ++ v.name ++ "\");\n"
  ++ "\t\treturn setDivisor(location, divisor);\n"
  ++ "\t\x7d\n"

/-- The setters text for all uniforms and attributes (lines 405-562): a leading
newline when anything is generated; after each uniform the separating-newline
guard is `i < uniformSize- - 2`, i.e. `i < uniformSize + 2`, which always
holds; after each attribute the newline is emitted for all but the last. -/
def settersText (us attrs : List Variable) : String :=
  (if us.length > 0 ∨ attrs.length > 0 then "\n" else "")
  ++ String.join (us.enum.map (fun p =>
       setterForUniform p.2
       ++ (if (p.1 : Int) < (us.length : Int) + 2 then "\n" else "")))
  ++ String.join (attrs.enum.map (fun p =>
       setterForAttribute p.2
       ++ (if (p.1 : Int) < (attrs.length : Int) - 1 then "\n" else "")))

/-- The member lines of one uniform block's `struct Data` body together with
the accumulated struct size and padding counter (lines 590-603). -/
def ubMembersText (bl : BlockLayout) (members : List Variable) : String × Int × Int :=
  members.foldl
    (fun acc v =>
      let uniformName := convertName v.name false
      let cType := cTypeOf v.type
      let memberSize := typeSize bl v
      let pad := typePadding bl v acc.2.2
      (acc.1
        ++ "\t\t" ++ typeAlign bl v ++ cType.ctype ++ " " ++ uniformName
        ++ (if v.arraySize > 0 then "[" ++ toString v.arraySize ++ "]" else "")
        ++ "; // " ++ toString memberSize ++ " bytes\n"
        ++ pad.1,
       acc.2.1 + memberSize,
       pad.2))
    ("", 0, 0)

/-- The spelled-out block-layout mode in the generated doc comment
(lines 576-587): `unknown` and `std140` print `std140`. -/
def blockLayoutText (bl : BlockLayout) : String :=
  match bl with
  | .unknown => "std140"
  | .std140 => "std140"
  | .std430 => "std430"

/-- Accumulator of the uniform-block generation loop (lines 564-642); `ub` and
`shutdown` are declared outside the loop in the C++, so each generated
uniform-buffer file carries the text accumulated over all blocks so far. -/
structure UbAcc where
  ub : String := ""
  shutdown : String := ""
  setters : String := ""
  includes : String := ""
  files : List (String × String) := []
  deriving DecidableEq, Repr

/-- One iteration of the uniform-block generation loop (lines 569-642):
accumulate the buffer field, shutdown call, `struct Data` body with alignment
directives and the size assertion, the update/create/conversion methods, the
per-block setter, the generated uniform-buffer file text (template
substitution) and the include line. -/
def ubStep (bl : BlockLayout) (namespaceSrc templateUniformBuffer : String)
    (acc : UbAcc) (ubuf : UniformBlock) : UbAcc :=
  let uniformBufferStructName := convertName ubuf.name true
  let uniformBufferName := convertName ubuf.name false
  let mems := ubMembersText bl ubuf.members
  let ub := acc.ub
    ++ "\n\t/**\n\t * @brief Uniform buffer for " ++ uniformBufferStructName ++ "::Data\n\t */\n"
    ++ "\tvideo::UniformBuffer _" ++ uniformBufferName ++ ";\n"
    ++ "\t/**\n\t * @brief layout(" ++ blockLayoutText bl
    ++ ") aligned uniform block structure\n\t */\n"
    ++ "\t#pragma pack(push, 1)\n\tstruct Data \x7b\n"
    ++ mems.1
    ++ "\t\x7d;\n\t#pragma pack(pop)\n"
    ++ "\tstatic_assert(sizeof(Data) == " ++ toString mems.2.1
    ++ ", \"Unexpected structure size for Data\");\n"
    ++ "\n\tinline bool update(const Data& var) \x7b\n"
    ++ "\t\treturn _" ++ uniformBufferName ++ ".update((const void*)&var, sizeof(var));\n"
    ++ "\t\x7d\n\n"
    ++ "\n\tinline bool create(const Data& var) \x7b\n"
    ++ "\t\treturn _" ++ uniformBufferName ++ ".create((const void*)&var, sizeof(var));\n"
    ++ "\t\x7d\n\n"
    ++ "\n\tinline operator const video::UniformBuffer&() const \x7b\n"
    ++ "\t\treturn _" ++ uniformBufferName ++ ";\n"
    ++ "\t\x7d\n"
  let shutdown := acc.shutdown ++ "\t\t_" ++ uniformBufferName ++ ".shutdown();\n"
  let setters := acc.setters
    ++ "\t/**\n"
    ++ "\t * @brief The the uniform buffer for the uniform block " ++ ubuf.name ++ "\n"
    ++ "\t */\n"
    ++ "\tinline bool set" ++ uniformBufferStructName ++ "(const video::UniformBuffer& buf) \x7b\n"
    ++ "\t\treturn setUniformBuffer(\"" ++ ubuf.name ++ "\", buf);\n"
    ++ "\t\x7d\n"
  let generatedUb :=
    replaceAll (replaceAll (replaceAll (replaceAll (replaceAll templateUniformBuffer
      "$name$" uniformBufferStructName)
      "$namespace$" namespaceSrc)
      "$uniformbuffers$" ub)
      "$setters$" "")
      "$shutdown$" shutdown
  let includes := acc.includes ++ "#include \"" ++ uniformBufferStructName ++ ".h\"\n"
  { ub := ub, shutdown := shutdown, setters := setters, includes := includes,
    files := acc.files ++ [(uniformBufferStructName, generatedUb)] }

/-- The inputs `ShaderTool::generateSrc` (lines 314-655) reads: the completed
Shader Interface Model, the block-layout mode left in `_layout`, the namespace
and shader-directory strings, and the two externally loaded templates. -/
structure GenInput where
  shaderStruct : ShaderStruct := {}
  blockLayout : BlockLayout := .unknown
  namespaceSrc : String := ""
  shaderDirectory : String := ""
  templateShader : String := ""
  templateUniformBuffer : String := ""
  deriving DecidableEq, Repr

/-- The texts `generateSrc` produces: the generated shader binding source (with
the class/file name it is written under) and one generated uniform-buffer
source per uniform block (with its struct/file name); the file writes
themselves belong to the filesystem collaborator. -/
structure GenOutput where
  mainName : String
  mainSource : String
  uniformBufferSources : List (String × String)
  deriving DecidableEq, Repr

/-- `ShaderTool::generateSrc` (lines 314-655) as a pure text transformation:
derive the class/file name, substitute the `$name$`/`$namespace$`/`$filename$`
placeholders, build the uniforms/attributes/setters texts, run the
uniform-block loop, and substitute the remaining placeholders. -/
def generateSrc (gi : GenInput) : GenOutput :=
  let name := gi.shaderStruct.name ++ "Shader"
  let filename := shaderFilename name
  let src := replaceAll (replaceAll (replaceAll gi.templateShader
    "$name$" filename)
    "$namespace$" gi.namespaceSrc)
    "$filename$" (gi.shaderDirectory ++ gi.shaderStruct.filename)
  let src := replaceAll src "$uniformarrayinfo$" (uniformArrayInfoText gi.shaderStruct.uniforms)
  let src := replaceAll src "$uniforms$" (uniformsText gi.shaderStruct.uniforms)
  let setters := settersText gi.shaderStruct.uniforms gi.shaderStruct.attributes
    ++ (if gi.shaderStruct.uniformBlocks.isEmpty then "" else "\n")
  let ubAcc := gi.shaderStruct.uniformBlocks.foldl
    (ubStep gi.blockLayout gi.namespaceSrc gi.templateUniformBuffer)
    ({} : UbAcc)
  let src := replaceAll src "$attributes$" (attributesText gi.shaderStruct.attributes)
  let src := replaceAll src "$setters$" (setters ++ ubAcc.setters)
  let src := replaceAll src "$includes$" ubAcc.includes
  ⟨filename, src, ubAcc.files⟩

/-- The byte unit named by the C1 claim: 8 bytes for the double-precision
scalar and vector types, 4 bytes otherwise. -/
def claimUnitBytes (t : Typ) : Int :=
  match t with
  | .DOUBLE | .DVEC2 | .DVEC3 | .DVEC4 => 8
  | _ => 4

/-- The per-type component count of the amended C1 claim: scalars count 1;
2-component vectors count 2; 3- and 4-component vectors count 4 — except
`uvec3`, which keeps its 3 catalog components because `std140Size` omits
`UVEC3` from its 3-component override list; mat2 counts 4, mat3 counts 9,
mat4/mat3x4/mat4x3 count 16; samplers count 1. -/
def claimSizeComponents (t : Typ) : Int :=
  match t with
  | .DOUBLE | .FLOAT | .UNSIGNED_INT | .BOOL | .INT => 1
  | .BVEC2 | .DVEC2 | .UVEC2 | .IVEC2 | .VEC2 => 2
  | .BVEC3 | .DVEC3 | .IVEC3 | .VEC3 => 4
  | .UVEC3 => 3
  | .BVEC4 | .DVEC4 | .UVEC4 | .IVEC4 | .VEC4 => 4
  | .MAT2 => 4
  | .MAT3 => 9
  | .MAT4 | .MAT3X4 | .MAT4X3 => 16
  | _ => 1

/-- The alignment directive of the amended C2 claim: 16 bytes for the vector
types of float, double, signed-integer and bool scalar kind (the
unsigned-integer vectors are absent from `std140Align`'s list and get no
directive), 4 bytes for a bare float or double scalar, nothing otherwise. -/
def claimStd140Align (t : Typ) : String :=
  match t with
  | .VEC2 | .VEC3 | .VEC4 => "alignas(16) "
  | .DVEC2 | .DVEC3 | .DVEC4 => "alignas(16) "
  | .IVEC2 | .IVEC3 | .IVEC4 => "alignas(16) "
  | .BVEC2 | .BVEC3 | .BVEC4 => "alignas(16) "
  | .FLOAT | .DOUBLE => "alignas(4) "
  | _ => ""

/-! ## Theorems -/

/-- Appending a variable whose name the `find_if` duplicate guard did not find
preserves name-distinctness of the list. -/
theorem distinctNames_append {l : List Variable} {vr : Variable}
    (hg : l.any (fun w => w.name = vr.name) = false) (hd : distinctNames l) :
    distinctNames (l ++ [vr]) := by
  unfold distinctNames at *
  rw [List.map_append, List.nodup_append]
  refine ⟨hd, by simp, ?_⟩
  intro a ha hb
  simp only [List.map_cons, List.map_nil, List.mem_singleton] at hb
  obtain ⟨w, hw, rfl⟩ := List.mem_map.mp ha
  have := List.any_eq_false.mp hg w hw
  simp [hb] at this

/-- C1 (amended): `std140Size` returns components × unit bytes, multiplied by
the array size when it is positive, with an 8-byte unit exactly for the
double-precision scalar and vectors; 2-component vectors count 2 components,
3- and 4-component vectors count 4 — except uvec3, which keeps 3 components —
and mat2/mat3/mat4/mat3x4/mat4x3 count 4/9/16/16/16; in particular float has
size 4, vec3 size 16, vec4[3] size 48 and mat4 size 64. -/
theorem c1_std140_size (v : Variable) :
    std140Size v =
      (if v.arraySize > 0 then claimSizeComponents v.type * claimUnitBytes v.type * v.arraySize
       else claimSizeComponents v.type * claimUnitBytes v.type) ∧
    std140Size ⟨.FLOAT, "f", 0⟩ = 4 ∧
    std140Size ⟨.VEC3, "v3", 0⟩ = 16 ∧
    std140Size ⟨.VEC4, "v4", 3⟩ = 48 ∧
    std140Size ⟨.MAT4, "m", 0⟩ = 64 := by
  refine ⟨?_, by decide, by decide, by decide, by decide⟩
  obtain ⟨t, n, a⟩ := v
  cases t <;> simp [std140Size, claimSizeComponents, claimUnitBytes, cTypeOf]

/-- C1 counterexample: a `uvec3` variable (a 3-component vector) has std140
size 12, not the 16 = 4 components × 4 bytes that the claim's
"every 3-component vector counts as 4 components" rule demands. -/
theorem c1_counterexample :
    std140Size ⟨Typ.UVEC3, "v", 0⟩ = 12 ∧ std140Size ⟨Typ.UVEC3, "v", 0⟩ ≠ 4 * 4 := by
  decide

/-- C2 (amended): the emitted alignment directive is 16 bytes for the vector
types of float, double, signed-integer and bool scalar kind, no directive for
the unsigned-integer vectors, 4 bytes for a bare float or double scalar, and
no directive for every other type. -/
theorem c2_std140_align (v : Variable) :
    std140Align v = claimStd140Align v.type := by
  obtain ⟨t, n, a⟩ := v
  cases t <;> rfl

/-- C2 counterexample: a `uvec2` variable is a vector type, yet `std140Align`
emits no directive for it instead of the claimed 16-byte one. -/
theorem c2_counterexample :
    std140Align ⟨Typ.UVEC2, "v", 0⟩ = "" ∧ std140Align ⟨Typ.UVEC2, "v", 0⟩ ≠ "alignas(16) " := by
  decide

/-- C3: the std430 alignment, size and padding computations return exactly the
std140 results, and the `unknown` block-layout mode selects the std140
computations. -/
theorem c3_std430_reuses_std140 (v : Variable) (p : Int) :
    std430Size v = std140Size v ∧ std430Align v = std140Align v ∧
    std430Padding v p = std140Padding v p ∧
    typeSize BlockLayout.unknown v = std140Size v ∧
    typeAlign BlockLayout.unknown v = std140Align v ∧
    typePadding BlockLayout.unknown v p = std140Padding v p :=
  ⟨rfl, rfl, rfl, rfl, rfl, rfl⟩

/-- Filtering with the per-part condition inside the fold equals folding over
the filtered list. -/
theorem foldl_capitalize_filter (p : String → Prop) [DecidablePred p]
    (parts : List String) (acc : String) :
    parts.foldl (fun a n => if p n then a ++ capitalize1 n else a) acc
      = (parts.filter (fun n => p n)).foldl (fun a n => a ++ capitalize1 n) acc := by
  induction parts generalizing acc with
  | nil => rfl
  | cons h t ih => by_cases hp : p h <;> simp [List.filter_cons, hp, ih]

/-- Joining the capitalized parts equals folding append over them. -/
theorem join_map_eq_foldl (l : List String) :
    String.join (l.map capitalize1) = l.foldl (fun a n => a ++ capitalize1 n) "" := by
  simp [String.join, List.foldl_map]

/-- The name-derivation fold of `generateSrc` computes the filter/map/join
description of the C10 claim. -/
theorem filename_fold_eq (parts : List String) :
    parts.foldl (fun acc n => if n.length > 1 ∨ parts.length < 2 then acc ++ capitalize1 n else acc) ""
      = String.join ((if 2 ≤ parts.length then parts.filter (fun n => n.length > 1)
                      else parts).map capitalize1) := by
  by_cases hl : parts.length < 2
  · have h2 : ¬ 2 ≤ parts.length := by omega
    rw [if_neg h2, join_map_eq_foldl]
    simp [hl]
  · have h2 : 2 ≤ parts.length := by omega
    rw [if_pos h2, join_map_eq_foldl]
    have hcond : ∀ n : String, (n.length > 1 ∨ parts.length < 2) ↔ n.length > 1 := by
      intro n
      constructor
      · rintro (h | h)
        · exact h
        · exact absurd h hl
      · exact Or.inl
    simp only [hcond]
    rw [foldl_capitalize_filter]

/-- C10: the generated class/file name is derived from the shader base name
plus the `Shader` suffix by splitting on `_`, capitalizing and concatenating
the kept parts, dropping the length-1 parts exactly when the split produced at
least two parts, and falling back to the unsplit name when everything was
dropped — i.e. the source fold computes the claim's filter/map/join
description. -/
theorem c10_filename_derivation (base : String) :
    shaderFilename (base ++ "Shader") = shaderFilenameSpec (base ++ "Shader") := by
  unfold shaderFilename shaderFilenameSpec
  dsimp only []
  rw [filename_fold_eq]

/-- Inserting behind the duplicate guard preserves the distinctness of all
four top-level lists. -/
theorem setList_append_distinct {s : ShaderStruct} {tgt : Target} {vr : Variable}
    (hg : (getList s tgt).any (fun w => w.name = vr.name) = false)
    (h : listsDistinct s) :
    listsDistinct (setList s tgt (getList s tgt ++ [vr])) := by
  obtain ⟨h1, h2, h3, h4⟩ := h
  cases tgt
  · exact ⟨distinctNames_append hg h1, h2, h3, h4⟩
  · exact ⟨h1, distinctNames_append hg h2, h3, h4⟩
  · exact ⟨h1, h2, distinctNames_append hg h3, h4⟩
  · exact ⟨h1, h2, h3, distinctNames_append hg h4⟩

/-- A continuing `declStep` preserves the top-level distinctness invariant. -/
theorem declStep_cont_distinct {st : ParseState} {v : Option Target} {ts : List String}
    {st2 : ParseState} {ts2 : List String}
    (hs : declStep st v ts = .cont st2 ts2) (h : topListsDistinct st) :
    topListsDistinct st2 := by
  unfold declStep at hs
  cases hd : declRead ts <;> (rw [hd] at hs; dsimp only at hs)
  case crash => cases hs
  case failed => cases hs
  case blockStart bname rest =>
    cases hs
    exact h
  case var vr rest =>
    by_cases hub : st.uniformBlock
    · rw [if_pos hub] at hs
      cases hs
      exact h
    · rw [if_neg hub] at hs
      cases v with
      | none => cases hs
      | some tgt =>
        dsimp only at hs
        cases hany : (getList st.shaderStruct tgt).any (fun w => w.name = vr.name) <;>
          simp only [hany, if_true, if_false, Bool.false_eq_true, reduceIte] at hs
        · cases hs
          exact setList_append_distinct hany h
        · cases hs
          exact h

/-- A failing `declStep` returns the state unchanged, so the invariant holds. -/
theorem declStep_failed_distinct {st : ParseState} {v : Option Target} {ts : List String}
    {st2 : ParseState}
    (hs : declStep st v ts = .failed st2) (h : topListsDistinct st) :
    topListsDistinct st2 := by
  unfold declStep at hs
  cases hd : declRead ts <;> (rw [hd] at hs; dsimp only at hs)
  case crash => cases hs
  case failed =>
    cases hs
    exact h
  case blockStart bname rest => cases hs
  case var vr rest =>
    by_cases hub : st.uniformBlock
    · rw [if_pos hub] at hs
      cases hs
    · rw [if_neg hub] at hs
      cases v with
      | none => cases hs
      | some tgt =>
        dsimp only at hs
        cases hany : (getList st.shaderStruct tgt).any (fun w => w.name = vr.name) <;>
          simp only [hany, if_true, if_false, Bool.false_eq_true, reduceIte] at hs <;>
          cases hs

/-- A continuing `afterSelect` preserves the invariant. -/
theorem afterSelect_cont_distinct {st : ParseState} {v : Option Target} {ts : List String}
    {st2 : ParseState} {ts2 : List String}
    (hs : afterSelect st v ts = .cont st2 ts2) (h : topListsDistinct st) :
    topListsDistinct st2 := by
  unfold afterSelect at hs
  split at hs
  · cases hs
    exact h
  · exact declStep_cont_distinct hs h

/-- A failing `afterSelect` preserves the invariant. -/
theorem afterSelect_failed_distinct {st : ParseState} {v : Option Target} {ts : List String}
    {st2 : ParseState}
    (hs : afterSelect st v ts = .failed st2) (h : topListsDistinct st) :
    topListsDistinct st2 := by
  unfold afterSelect at hs
  split at hs
  · cases hs
  · exact declStep_failed_distinct hs h

/-- A continuing scanner-loop iteration preserves the invariant: the only
top-level list mutation is the guarded insertion of `declStep`. -/
theorem parseStep_cont_distinct {vertex : Bool} {st : ParseState} {tok : String}
    {rest : List String} {st2 : ParseState} {ts2 : List String}
    (hs : parseStep vertex st tok rest = .cont st2 ts2) (h : topListsDistinct st) :
    topListsDistinct st2 := by
  unfold parseStep at hs
  split_ifs at hs <;>
    first
      | exact declStep_cont_distinct hs h
      | exact afterSelect_cont_distinct hs h
      | (cases hs; exact h)
      | cases hs
      | (split at hs <;>
          first
            | (cases hs; exact h)
            | cases hs
            | exact afterSelect_cont_distinct hs h
            | (split_ifs at hs <;> first | (cases hs; exact h) | cases hs))

/-- A failing scanner-loop iteration preserves the invariant. -/
theorem parseStep_failed_distinct {vertex : Bool} {st : ParseState} {tok : String}
    {rest : List String} {st2 : ParseState}
    (hs : parseStep vertex st tok rest = .failed st2) (h : topListsDistinct st) :
    topListsDistinct st2 := by
  unfold parseStep at hs
  split_ifs at hs <;>
    first
      | exact declStep_failed_distinct hs h
      | exact afterSelect_failed_distinct hs h
      | cases hs
      | (split at hs <;>
          first
            | cases hs
            | exact afterSelect_failed_distinct hs h
            | (split_ifs at hs <;> cases hs))

/-- The scanner loop preserves the top-level distinctness invariant. -/
theorem parseLoop_distinct (vertex : Bool) :
    ∀ (fuel : Nat) (st : ParseState) (ts : List String) (b : Bool) (st2 : ParseState),
      topListsDistinct st → parseLoop vertex fuel st ts = some (b, st2) →
      topListsDistinct st2 := by
  intro fuel
  induction fuel with
  | zero =>
    intro st ts b st2 h hp
    cases hp
  | succ n ih =>
    intro st ts b st2 h hp
    cases ts with
    | nil =>
      unfold parseLoop at hp
      dsimp only at hp
      split at hp <;> (cases hp; exact h)
    | cons tok rest =>
      unfold parseLoop at hp
      dsimp only at hp
      cases hstep : parseStep vertex st tok rest <;> rw [hstep] at hp <;> dsimp only at hp
      · cases hp
      · cases hp
        exact parseStep_failed_distinct hstep h
      · exact ih _ _ _ _ (parseStep_cont_distinct hstep h) hp

/-- C4 (amended): any full parse started from a state whose four top-level
lists (attributes, varyings, outs, uniforms) are name-deduplicated leaves them
name-deduplicated — a top-level declaration whose name is already present in
its target list is rejected with a warning and not inserted.  (Uniform-block
member lists are exempt: the scanner appends members without a duplicate
check.) -/
theorem c4_top_lists_distinct (vertex : Bool) (ts : List String) (b : Bool)
    (st st2 : ParseState)
    (h : topListsDistinct st) (hp : parse st vertex ts = some (b, st2)) :
    topListsDistinct st2 :=
  parseLoop_distinct vertex (ts.length + 1) st ts b st2 h hp

/-- C4 witness: parsing `uniform float a; uniform float a;` from the empty
state yields exactly one `a` of type float, and the resulting lists are
name-deduplicated. -/
theorem c4_witness :
    topListsDistinct ({} : ParseState) ∧
    parse {} true ["uniform", "float", "a", ";", "uniform", "float", "a", ";"] =
      some (true, { shaderStruct := { uniforms := [⟨Typ.FLOAT, "a", 0⟩] } }) ∧
    topListsDistinct { shaderStruct := { uniforms := [⟨Typ.FLOAT, "a", 0⟩] } } :=
  ⟨by decide, by decide,
   c4_top_lists_distinct true ["uniform", "float", "a", ";", "uniform", "float", "a", ";"]
     true {} { shaderStruct := { uniforms := [⟨Typ.FLOAT, "a", 0⟩] } }
     (by decide) (by decide)⟩

/-- C4 counterexample: inside a uniform block no duplicate check happens —
parsing `uniform B { float a[2]; float a[2]; };` appends a block whose member
list holds two entries named `a`. -/
theorem c4_counterexample :
    (parse {} true ["uniform", "B", "\x7b", "float", "a", "[", "2", "]", ";",
                    "float", "a", "[", "2", "]", ";", "\x7d", ";"]).map
        (fun r => r.2.shaderStruct.uniformBlocks.map
          (fun bl => (bl.name, bl.members.map Variable.name)))
      = some [("B", ["a", "a"])] ∧
    ¬ distinctNames [⟨Typ.FLOAT, "a", 2⟩, ⟨Typ.FLOAT, "a", 2⟩] := by
  decide

/-- One scanner-loop iteration on a non-empty stream with non-zero fuel. -/
theorem parseLoop_cons (vertex : Bool) (fuel : Nat) (st : ParseState) (tok : String)
    (rest : List String) :
    parseLoop vertex (fuel + 1) st (tok :: rest) =
      match parseStep vertex st tok rest with
      | .crash => none
      | .failed st2 => some (false, st2)
      | .cont st2 ts2 => parseLoop vertex fuel st2 ts2 :=
  rfl

/-- The scanner loop on an exhausted stream with non-zero fuel. -/
theorem parseLoop_nil (vertex : Bool) (fuel : Nat) (st : ParseState) :
    parseLoop vertex (fuel + 1) st [] =
      (if st.uniformBlock then some (false, st) else some (true, st)) :=
  rfl

/-- The catalog resolves the keyword `float`. -/
theorem getType_float : getType "float" = some Typ.FLOAT := by decide

/-- `toInt` on the token `1`. -/
theorem toInt_one : toInt "1" = 1 := by decide

/-- C5 counterexample: after `uniform float a;` the declaration
`layout(location = 2) uniform float a;` is rejected as a duplicate, and the
accumulated Layout record is NOT reset — at the end of the parse it still
holds location 2 rather than the default -1, so a subsequent declaration with
no layout qualifier would see the previous declaration's layout values. -/
theorem c5_counterexample :
    (parse {} true ["uniform", "float", "a", ";",
                    "layout", "(", "location", "=", "2", ")",
                    "uniform", "float", "a", ";"]).map (fun r => r.2.layout.location)
      = some 2 ∧
    ({} : Layout).location = -1 :=
  ⟨by rfl, by rfl⟩

/-- C5 (amended): the Layout record accumulates across multiple `layout(...)`
qualifiers with last writer winning per field (location 2 then 5 then binding 1
leaves location 5 and binding 1); it is reset to defaults when a declaration is
inserted into its target list and when a uniform block closes; but a
declaration rejected as a duplicate does not reset it, so the accumulated
values survive into the next declaration. -/
theorem c5_layout_lifecycle :
    (parse {} true ["uniform", "float", "a", ";",
                    "layout", "(", "location", "=", "2", ")",
                    "layout", "(", "location", "=", "5", ")",
                    "layout", "(", "binding", "=", "1", ")",
                    "uniform", "float", "a", ";"]).map
        (fun r => (r.2.layout.location, r.2.layout.binding)) = some (5, 1) ∧
    parse {} true ["layout", "(", "location", "=", "2", ")",
                   "layout", "(", "binding", "=", "1", ")",
                   "uniform", "sampler2D", "tex", ";"] =
      some (true, { shaderStruct := { uniforms := [⟨Typ.SAMPLER2D, "tex", 0⟩] } }) ∧
    (parse {} true ["layout", "(", "std140", ")",
                    "uniform", "B", "\x7b", "float", "m", "[", "1", "]", ";",
                    "\x7d", ";"]).map (fun r => r.2.layout) = some {} :=
  ⟨by rfl, by rfl, by rfl⟩

/-- C6: the `$out` marker routes the following declaration to the varyings
list in the vertex stage and to the outs list in a non-vertex stage, while the
`$in` marker routes to the attributes list only in the vertex stage and adds
nothing in a non-vertex stage. -/
theorem c6_stage_routing (st : ParseState) (n : String)
    (hub : st.uniformBlock = false) (hbrace : n ≠ "\x7b")
    (hin : n ≠ "$in") (hout : n ≠ "$out") (hlay : n ≠ "layout")
    (hbuf : n ≠ "buffer") (huni : n ≠ "uniform")
    (hva : st.shaderStruct.varyings.any (fun w => w.name = n) = false)
    (ho : st.shaderStruct.outs.any (fun w => w.name = n) = false)
    (ha : st.shaderStruct.attributes.any (fun w => w.name = n) = false) :
    parse st true ["$out", "float", n, ";"] =
      some (true, { st with shaderStruct := { st.shaderStruct with
        varyings := st.shaderStruct.varyings ++ [⟨Typ.FLOAT, n, 0⟩] }, layout := {} }) ∧
    parse st false ["$out", "float", n, ";"] =
      some (true, { st with shaderStruct := { st.shaderStruct with
        outs := st.shaderStruct.outs ++ [⟨Typ.FLOAT, n, 0⟩] }, layout := {} }) ∧
    parse st true ["$in", "float", n, ";"] =
      some (true, { st with shaderStruct := { st.shaderStruct with
        attributes := st.shaderStruct.attributes ++ [⟨Typ.FLOAT, n, 0⟩] }, layout := {} }) ∧
    parse st false ["$in", "float", n, ";"] = some (true, st) := by
  refine ⟨?_, ?_, ?_, ?_⟩ <;>
    simp only [parse, List.length_cons, List.length_nil, parseLoop_cons, parseLoop_nil,
      parseStep, declStep, declRead, precLoop, afterSelect, getType_float,
      getList, setList, hub, hbrace, hin, hout, hlay, hbuf, huni, hva, ho, ha,
      String.reduceEq, List.isEmpty_cons, Bool.false_eq_true, if_false, if_true,
      reduceIte, or_self, or_false, false_or, Option.isNone_none, Option.isNone_some,
      not_false_eq_true, and_true, true_and, and_self]

/-- C6 witness: the routing theorem applied to the empty state and the
variable name `pos`. -/
theorem c6_witness :
    parse {} true ["$out", "float", "pos", ";"] =
      some (true, { shaderStruct := { varyings := [⟨Typ.FLOAT, "pos", 0⟩] } }) ∧
    parse {} false ["$out", "float", "pos", ";"] =
      some (true, { shaderStruct := { outs := [⟨Typ.FLOAT, "pos", 0⟩] } }) ∧
    parse {} true ["$in", "float", "pos", ";"] =
      some (true, { shaderStruct := { attributes := [⟨Typ.FLOAT, "pos", 0⟩] } }) ∧
    parse {} false ["$in", "float", "pos", ";"] = some (true, {}) := by
  obtain ⟨a, b, c, d⟩ := c6_stage_routing {} "pos" (by decide) (by decide) (by decide)
    (by decide) (by decide) (by decide) (by decide) (by decide) (by decide) (by decide)
  exact ⟨a, b, c, d⟩

/-- C7 (amended): an array declaration with a bracketed size token whose
integer conversion is 0 (non-numeric tokens included) yields arraySize -1 with
a warning, and one whose conversion is non-zero (in particular every numeric
N > 0) yields that value; but the empty-bracket form `float arr[];` does not
reach this path — its size token is the `]` itself and the scanner's assert on
the closing `]` then fails fatally. -/
theorem c7_array_size (st : ParseState) (n s : String)
    (hub : st.uniformBlock = false) (hbrace : n ≠ "\x7b")
    (hfresh : st.shaderStruct.uniforms.any (fun w => w.name = n) = false) :
    (toInt s ≠ 0 → parse st true ["uniform", "float", n, "[", s, "]", ";"] =
       some (true, { st with
         shaderStruct := { st.shaderStruct with
           uniforms := st.shaderStruct.uniforms ++ [⟨Typ.FLOAT, n, toInt s⟩] },
         layout := {} })) ∧
    (toInt s = 0 → parse st true ["uniform", "float", n, "[", s, "]", ";"] =
       some (true, { st with
         shaderStruct := { st.shaderStruct with
           uniforms := st.shaderStruct.uniforms ++ [⟨Typ.FLOAT, n, -1⟩] },
         layout := {} })) := by
  constructor <;> intro hs <;>
    simp only [parse, List.length_cons, List.length_nil, parseLoop_cons, parseLoop_nil,
      parseStep, declStep, declRead, precLoop, afterSelect, getType_float,
      getList, setList, hub, hbrace, hfresh, hs,
      String.reduceEq, List.isEmpty_cons, Bool.false_eq_true, if_false, if_true,
      reduceIte, or_self, or_false, false_or, Option.isNone_none, Option.isNone_some,
      not_false_eq_true, and_true, true_and, and_self]

/-- C7 witness: a numeric size `3` yields arraySize 3 and a non-numeric size
token `qq` yields arraySize -1, both by the array-size theorem. -/
theorem c7_witness :
    parse {} true ["uniform", "float", "arr", "[", "3", "]", ";"] =
      some (true, { shaderStruct := { uniforms := [⟨Typ.FLOAT, "arr", 3⟩] } }) ∧
    parse {} true ["uniform", "float", "arr", "[", "qq", "]", ";"] =
      some (true, { shaderStruct := { uniforms := [⟨Typ.FLOAT, "arr", -1⟩] } }) := by
  constructor
  · exact (c7_array_size {} "arr" "3" (by decide) (by decide) (by decide)).1 (by decide)
  · exact (c7_array_size {} "arr" "qq" (by decide) (by decide) (by decide)).2 (by decide)

/-- C7 counterexample: `float arr[];` — empty brackets — is a fatal parse
abort (`core_assert_always(_tok.next() == "]")` reads the `;`), not a Variable
with arraySize -1. -/
theorem c7_counterexample :
    parse {} true ["uniform", "float", "arr", "[", "]", ";"] = none := by
  decide

/-- C8 (amended): a uniform block is appended to the model at its closing
brace with exactly the members scanned between the braces — a block whose body
declares one member is appended with that one member, and a block with an
empty body is appended with an empty member sequence. -/
theorem c8_block_append (st : ParseState) (B n : String)
    (hub : st.uniformBlock = false)
    (hB1 : B ≠ "highp") (hB2 : B ≠ "mediump") (hB3 : B ≠ "lowp") (hB4 : B ≠ "precision")
    (hbrace : n ≠ "\x7b") :
    parse st true ["uniform", B, "\x7b", "float", n, "[", "1", "]", ";", "\x7d", ";"] =
      some (true, { st with
        shaderStruct := { st.shaderStruct with
          uniformBlocks := st.shaderStruct.uniformBlocks ++ [⟨B, [⟨Typ.FLOAT, n, 1⟩]⟩] },
        layout := {}, block := ⟨B, [⟨Typ.FLOAT, n, 1⟩]⟩, uniformBlock := false }) ∧
    parse st true ["uniform", B, "\x7b", "\x7d", ";"] =
      some (true, { st with
        shaderStruct := { st.shaderStruct with
          uniformBlocks := st.shaderStruct.uniformBlocks ++ [⟨B, []⟩] },
        layout := {}, block := ⟨B, []⟩, uniformBlock := false }) := by
  constructor <;>
    simp only [parse, List.length_cons, List.length_nil, parseLoop_cons, parseLoop_nil,
      parseStep, declStep, declRead, precLoop, afterSelect, getType_float, toInt_one,
      getList, setList, hub, hB1, hB2, hB3, hB4, hbrace, List.nil_append,
      String.reduceEq, Int.reduceEq, List.isEmpty_cons, Bool.false_eq_true, if_false,
      if_true, reduceIte, or_self, or_false, false_or, Option.isNone_none,
      Option.isNone_some, not_false_eq_true, and_true, true_and, and_self]

/-- C8 witness: the block-append theorem at the empty state for block `X` with
member `m[1]`. -/
theorem c8_witness :
    parse {} true ["uniform", "X", "\x7b", "float", "m", "[", "1", "]", ";", "\x7d", ";"] =
      some (true, { shaderStruct := { uniformBlocks := [⟨"X", [⟨Typ.FLOAT, "m", 1⟩]⟩] },
                    block := ⟨"X", [⟨Typ.FLOAT, "m", 1⟩]⟩ }) := by
  exact (c8_block_append {} "X" "m" (by decide) (by decide) (by decide) (by decide)
    (by decide) (by decide)).1

/-- C8 counterexample: `uniform X { };` appends a UniformBlock with an EMPTY
members sequence to the model. -/
theorem c8_counterexample :
    (parse {} true ["uniform", "X", "\x7b", "\x7d", ";"]).map
        (fun r => r.2.shaderStruct.uniformBlocks.map (fun bl => (bl.name, bl.members)))
      = some [("X", ([] : List Variable))] := by
  decide

/-- C9: the core is deterministic — the parse outcome is a function of the
start state, the stage flag and the token stream alone, and the generated
binding text is a function of the model, the layout mode and the templates
alone, so two runs on equal inputs produce equal (byte-identical) results. -/
theorem c9_deterministic :
    (∀ (st st2 : ParseState) (vertex vertex2 : Bool) (ts ts2 : List String),
        st = st2 → vertex = vertex2 → ts = ts2 →
        parse st vertex ts = parse st2 vertex2 ts2) ∧
    (∀ (gi gi2 : GenInput), gi = gi2 → generateSrc gi = generateSrc gi2) := by
  constructor
  · intro st st2 vertex vertex2 ts ts2 h1 h2 h3
    rw [h1, h2, h3]
  · intro gi gi2 h
    rw [h]

/-- C9 witness: two runs of the parser on the same stream and two runs of the
generator on the same input agree. -/
theorem c9_witness :
    parse {} true ["uniform", "float", "a", ";"] =
      parse {} true ["uniform", "float", "a", ";"] ∧
    generateSrc {} = generateSrc {} :=
  ⟨c9_deterministic.1 {} {} true true _ _ rfl rfl rfl, c9_deterministic.2 {} {} rfl⟩

end ShaderToolV
